import Mathlib

/-!
Verification development for the extraction and matching engine of
`ipeds_crawler.py` (a web crawler that reduces an institution profile page
to a flat list of `{Category, Value, Section, Source}` records).

The Python source is shallowly embedded: Selenium element handles become
immutable Lean structures (`Cell`, `Row`, `TheadRow`, `Table`), and each
worker-level Python function becomes a Lean function of the same name.
Python string operations (`lower`, `upper`, `strip`, `join`, `in`) are
embedded as executable char-list functions (`strLower`, `strUpper`,
`strTrim`, `joinSep`, `containsSub`) so that all definitions evaluate by
kernel reduction.

The section name that `determine_section_static` would compute for an
element is carried as a field (`sect`) of the element structure: the
locator itself is geometric (it compares Selenium y-positions) and is
orthogonal to every property proved here; all embedded functions merely
thread its result through, exactly as the source does.
-/

/-- Python `c in text` test for a single char. -/
def charIn (c : Char) (l : List Char) : Bool :=
  l.any (fun d => d == c)

/-- Whitespace as stripped by Python `str.strip` (ASCII portion). -/
def isWSChar (c : Char) : Bool :=
  c == ' ' || c == '\t' || c == '\n' || c == '\r' || c == '\x0b' || c == '\x0c'

/-- Embedding of Python `str.strip()`. -/
def strTrim (s : String) : String :=
  ⟨((s.data.dropWhile isWSChar).reverse.dropWhile isWSChar).reverse⟩

/-- Embedding of Python `str.lower()` (ASCII case folding, as in `Char.toLower`). -/
def strLower (s : String) : String :=
  ⟨s.data.map Char.toLower⟩

/-- Embedding of Python `str.upper()`. -/
def strUpper (s : String) : String :=
  ⟨s.data.map Char.toUpper⟩

/-- Embedding of Python `sep.join(l)`. -/
def joinSep (sep : String) : List String → String
  | [] => ""
  | [x] => x
  | x :: y :: xs => x ++ sep ++ joinSep sep (y :: xs)

/-- Is `p` a prefix of `l`? (decision procedure used by the substring test). -/
def prefixB : List Char → List Char → Bool
  | [], _ => true
  | _ :: _, [] => false
  | a :: as, b :: bs => a == b && prefixB as bs

/-- Is `p` a contiguous sublist of `l`? -/
def infixB (p : List Char) : List Char → Bool
  | [] => prefixB p []
  | b :: bs => prefixB p (b :: bs) || infixB p bs

/-- Embedding of Python `pat in text` (substring containment). -/
def containsSub (text pat : String) : Bool :=
  infixB pat.data text.data

/-- Concatenation of a list of lists (Python repeated `extend`/`append`). -/
def catLists : List (List α) → List α
  | [] => []
  | l :: ls => l ++ catLists ls

theorem prefixB_iff (p : List Char) : ∀ l : List Char, prefixB p l = true ↔ List.IsPrefix p l := by
  induction p with
  | nil => intro l; simp [prefixB, List.nil_prefix]
  | cons a as ih =>
    intro l
    cases l with
    | nil =>
      simp only [prefixB]
      constructor
      · intro h; cases h
      · rintro ⟨t, ht⟩; cases ht
    | cons b bs =>
      simp only [prefixB, Bool.and_eq_true, beq_iff_eq]
      constructor
      · rintro ⟨hab, hp⟩
        subst hab
        obtain ⟨t, ht⟩ := (ih bs).mp hp
        exact ⟨t, by simp [← ht]⟩
      · rintro ⟨t, ht⟩
        simp only [List.cons_append] at ht
        injection ht with h1 h2
        exact ⟨h1, (ih bs).mpr ⟨t, h2⟩⟩

theorem infixB_iff (p : List Char) : ∀ l : List Char, infixB p l = true ↔ List.IsInfix p l := by
  intro l
  induction l with
  | nil =>
    simp only [infixB]
    rw [prefixB_iff]
    constructor
    · intro h; exact h.isInfix
    · intro h; exact (List.infix_nil.mp h) ▸ List.nil_prefix
  | cons b bs ih =>
    simp only [infixB, Bool.or_eq_true]
    rw [prefixB_iff, ih]
    exact (List.infix_cons_iff).symm

theorem containsSub_iff (text pat : String) :
    containsSub text pat = true ↔ List.IsInfix pat.data text.data := by
  exact infixB_iff pat.data text.data

/-- `catLists` of a family of empty lists is empty. -/
theorem catLists_eq_nil (l : List (List α)) (h : ∀ x ∈ l, x = []) : catLists l = [] := by
  induction l with
  | nil => rfl
  | cons a as ih =>
    simp only [catLists]
    rw [h a (by simp), ih (fun x hx => h x (by simp [hx]))]
    rfl

/-- Pointwise-equal functions give equal `filterMap`s. -/
theorem filterMap_congr_mem (l : List α) (f g : α → Option β)
    (h : ∀ a ∈ l, f a = g a) : l.filterMap f = l.filterMap g := by
  induction l with
  | nil => rfl
  | cons a as ih =>
    simp only [List.filterMap_cons]
    rw [h a (by simp), ih (fun x hx => h x (by simp [hx]))]

/-- Members of `enumFrom n l` have index at least `n` and value in `l`. -/
theorem mem_enumFrom_facts (l : List α) : ∀ (n : Nat) (p : Nat × α),
    p ∈ List.enumFrom n l → n ≤ p.1 ∧ p.2 ∈ l := by
  induction l with
  | nil => intro n p h; cases h
  | cons a as ih =>
    intro n p h
    simp only [List.enumFrom] at h
    rcases List.mem_cons.mp h with h1 | h2
    · subst h1; exact ⟨Nat.le_refl n, by simp⟩
    · obtain ⟨hle, hmem⟩ := ih (n+1) p h2
      exact ⟨Nat.le_of_succ_le hle, by simp [hmem]⟩

/-- `enumFrom` commutes with `map` on the values. -/
theorem enumFrom_map (f : α → β) (l : List α) : ∀ n : Nat,
    List.enumFrom n (l.map f) = (List.enumFrom n l).map (fun p => (p.1, f p.2)) := by
  induction l with
  | nil => intro n; rfl
  | cons a as ih => intro n; simp only [List.map, List.enumFrom, ih (n+1)]

/-- `takeWhile` runs past a block on which the predicate holds. -/
theorem takeWhile_append_all (p : α → Bool) (l1 l2 : List α) (h : ∀ a ∈ l1, p a = true) :
    (l1 ++ l2).takeWhile p = l1 ++ l2.takeWhile p := by
  induction l1 with
  | nil => rfl
  | cons a as ih =>
    simp only [List.cons_append, List.takeWhile_cons, h a (by simp), if_true, if_pos trivial]
    rw [ih (fun x hx => h x (by simp [hx]))]

/-- `filter` keeps a list on which the predicate holds. -/
theorem filter_eq_self_all (p : α → Bool) (l : List α) (h : ∀ a ∈ l, p a = true) :
    l.filter p = l := by
  induction l with
  | nil => rfl
  | cons a as ih =>
    simp only [List.filter_cons, h a (by simp), if_pos trivial]
    rw [ih (fun x hx => h x (by simp [hx]))]

/-- `getD` through `map` at an in-bounds index. -/
theorem getD_map_str (f : String → String) (l : List String) : ∀ (n : Nat), n < l.length →
    (l.map f).getD n "" = f (l.getD n "") := by
  induction l with
  | nil => intro n h; cases h
  | cons a as ih =>
    intro n h
    cases n with
    | zero => rfl
    | succ m =>
      simp only [List.map, List.getD_cons_succ]
      exact ih m (Nat.lt_of_succ_lt_succ h)

/-- A `filterMap` that succeeds everywhere preserves length. -/
theorem length_filterMap_all (f : α → Option β) (l : List α)
    (h : ∀ a ∈ l, (f a).isSome = true) : (l.filterMap f).length = l.length := by
  induction l with
  | nil => rfl
  | cons a as ih =>
    have ha := h a (by simp)
    obtain ⟨b, hb⟩ := Option.isSome_iff_exists.mp ha
    simp only [List.filterMap_cons, hb, List.length_cons]
    rw [ih (fun x hx => h x (by simp [hx]))]

/-! ## Data model

Immutable snapshots of the Selenium element handles the engine reads. -/

/-- The output artifact: one flat record. -/
structure Record where
  Category : String
  Value : String
  Section : String
  Source : String
deriving DecidableEq, Repr

/-- A `<td>` cell: its visible text, and the `alt` attribute of the first
contained `<img>` when one exists (`none` when the cell has no image). -/
structure Cell where
  text : String
  imgAlt : Option String
deriving DecidableEq, Repr

/-- A `<tr>` row: its `class` attribute, the texts of its `<th>` cells, and
its `<td>` cells. -/
structure Row where
  cls : String
  ths : List String
  tds : List Cell
deriving DecidableEq, Repr

/-- One `<tr>` inside a `<thead>`: texts of its `<th>` and `<td>` cells. -/
structure TheadRow where
  ths : List String
  tds : List String
deriving DecidableEq, Repr

/-- A `<table>` element (data table or graph container), snapshotted.
`rows` is everything `find_elements(By.TAG_NAME, "tr")` returns, thead rows
included; `thead` is the first `<thead>` child when present; `imgs` are the
`(alt, src)` attribute pairs of all `<img>` descendants; `sect` is the
section name `determine_section_static` yields for this element. -/
structure Table where
  cls : String
  text : String
  captions : List String
  thead : Option (List TheadRow)
  rows : List Row
  imgs : List (String × String)
  svgTitle : Option String
  sect : String
deriving DecidableEq, Repr

/-- Discovery result for one table or graph container
(Python dict `{'index', 'element', 'match_type', 'section'}`). -/
structure MatchInfo where
  index : Nat
  elem : Table
  matchType : String
  sect : String
deriving DecidableEq, Repr

/-! ## TextClassifier -/

/-- `keyword_match_static`: every keyword (lowered) must occur in the lowered
text; an empty keyword list never matches. -/
def keyword_match_static (text : String) (keywords : List String) : Bool :=
  if keywords.isEmpty then false
  else
    let tl := strLower text
    keywords.all (fun k => containsSub tl (strLower k))

/-- The inline term test used throughout the source (e.g. in
`find_matching_tables_static`): some term, lowered, occurs in the lowered
text. -/
def term_match_static (text : String) (terms : List String) : Bool :=
  terms.any (fun term => containsSub (strLower text) (strLower term))

/-! ## HeaderInference -/

/-- Header labels from the last `<thead>` row, with `HeadCol{i+1}` placeholders
for blank cells. -/
def headLabels (cells : List String) : List String :=
  (List.enum cells).map (fun p =>
    let c := strTrim p.2
    if c = "" then "HeadCol" ++ toString (p.1 + 1) else c)

/-- Header labels from first-row `<th>` cells, with `Row1Col{i+1}` placeholders. -/
def row1Labels (cells : List String) : List String :=
  (List.enum cells).map (fun p =>
    let c := strTrim p.2
    if c = "" then "Row1Col" ++ toString (p.1 + 1) else c)

/-- Fallback of `get_table_headers_and_data_start_idx_static`: look for `<th>`
cells in the first row of the table. -/
def headersFromFirstRow (all_rows : List Row) : List String × Nat :=
  match all_rows with
  | [] => ([], 0)
  | r :: _ => if r.ths.isEmpty then ([], 0) else (row1Labels r.ths, 1)

/-- `get_table_headers_and_data_start_idx_static`: headers and the index of
the first data row. `<thead>` (last row, `<th>` cells falling back to `<td>`)
wins; else `<th>` cells of the first table row; else no headers. -/
def get_table_headers_and_data_start_idx_static (t : Table) (all_rows : List Row) :
    List String × Nat :=
  if all_rows.isEmpty then ([], 0)
  else
    match t.thead with
    | some theadRows =>
      match theadRows.getLast? with
      | some lastRow =>
        let cells := if lastRow.ths.isEmpty then lastRow.tds else lastRow.ths
        if cells.isEmpty then headersFromFirstRow all_rows
        else (headLabels cells, theadRows.length)
      | none => headersFromFirstRow all_rows
    | none => headersFromFirstRow all_rows

/-! ## DeepRowSearch (`deep_search_in_table_static`) -/

/-- The `"blank"` substitution applied to matched-row values:
Python `v if v and v != "-" else "blank"`. -/
def blankSub (v : String) : String :=
  if v ≠ "" ∧ v ≠ "-" then v else "blank"

/-- The value of a `<td>` cell as DeepRowSearch reads it: the stripped text,
replaced by the stripped `alt` of a contained image when the text is empty
and the alt is non-blank. -/
def cellVal (c : Cell) : String :=
  let v := strTrim c.text
  if v = "" then
    match c.imgAlt with
    | some a => if strTrim a = "" then "" else strTrim a
    | none => ""
  else v

/-- The per-row cell values used by DeepRowSearch for matching and emission. -/
def rowVals (r : Row) : List String :=
  r.tds.map cellVal

/-- The cell values, without the image-alt substitution (used for detail rows). -/
def rawVals (r : Row) : List String :=
  r.tds.map (fun c => strTrim c.text)

/-- Header label or positional placeholder `Col{i}`, per the `full_text`
construction of `deep_search_in_table_static`. -/
def headerLabel (headers : List String) (i : Nat) : String :=
  let h := headers.getD i ""
  if h = "" then "Col" ++ toString i else h

/-- `full_text` of a row: each value prefixed by its header label, joined by
spaces, lowered. -/
def fullTextOf (headers : List String) (vals : List String) : String :=
  strLower (joinSep " " ((List.enum vals).map (fun p => headerLabel headers p.1 ++ " " ++ p.2)))

/-- `simple_text` of a row: the lowered raw values joined by spaces. -/
def simpleTextOf (vals : List String) : String :=
  joinSep " " (vals.map strLower)

/-- The row-level term test of DeepRowSearch. -/
def termHitB (terms : List String) (fullT simpleT : String) : Bool :=
  terms.any (fun term => containsSub fullT (strLower term) || containsSub simpleT (strLower term))

/-- The row-level keyword test of DeepRowSearch (only tried when no term hit). -/
def keyHitB (kws : List String) (fullT simpleT : String) (termHit : Bool) : Bool :=
  if termHit then false
  else if kws.isEmpty then false
  else keyword_match_static fullT kws || keyword_match_static simpleT kws

/-- `(term_hit, key_hit)` for one row. -/
def rowMatchData (headers terms kws : List String) (r : Row) : Bool × Bool :=
  let vals := r.tds.map cellVal
  let ft := fullTextOf headers vals
  let st := simpleTextOf vals
  let th := termHitB terms ft st
  (th, keyHitB kws ft st th)

/-- The group record emitted for a matching `subrow`-classed row. -/
def groupRecOf (sect : String) (vals : List String) : Record :=
  { Category := vals.getD 0 "", Value := "", Section := sect,
    Source := "DeepSearch - Subrow Group" }

/-- The detail record for one consumed row after a matching group header:
indent marker on the first cell, `blankSub` on the rest (no image-alt
substitution here). -/
def detailRecord (sect : String) (det : Row) : Record :=
  { Category := "  ↳ " ++ (rawVals det).getD 0 "",
    Value := joinSep "; " (((rawVals det).drop 1).map blankSub),
    Section := sect, Source := "DeepSearch - Subrow Detail" }

/-- The detail record emitted for one consumed row after a matching group
header (`none` when the row has no `<td>` cells). -/
def detailRecOf (sect : String) (det : Row) : Option Record :=
  if det.tds.isEmpty then none
  else some (detailRecord sect det)

/-- The normal record emitted for a matching non-group row. -/
def normalRecOf (sect : String) (vals : List String) (termHit : Bool) : Record :=
  { Category := vals.getD 0 "",
    Value := joinSep "; " ((vals.drop 1).map blankSub),
    Section := sect,
    Source := "DeepSearch - " ++ (if termHit then "Term" else "Keyword") ++ " Match" }

/-- What one row of the main DeepRowSearch scan appends: nothing when the row
has no cells or does not match; a group record plus the detail records of the
following non-`subrow` rows when the matching row is `subrow`-classed; one
normal record otherwise. `rest` is the list of rows after this one. -/
def emitRow (headers terms kws : List String) (sect : String) (r : Row) (rest : List Row) :
    List Record :=
  if r.tds.isEmpty then []
  else
    let vals := r.tds.map cellVal
    let m := rowMatchData headers terms kws r
    if m.1 || m.2 then
      if containsSub r.cls "subrow" then
        groupRecOf sect vals ::
          (rest.takeWhile (fun det => !(containsSub det.cls "subrow"))).filterMap (detailRecOf sect)
      else [normalRecOf sect vals m.1]
    else []

/-- The main scan of `deep_search_in_table_static`: every row from index
`start` on is tested; matches append via `emitRow`. -/
def scanRows (headers : List String) (start : Nat) (terms kws : List String) (sect : String) :
    Nat → List Row → List Record
  | _, [] => []
  | idx, r :: rest =>
    (if idx < start then [] else emitRow headers terms kws sect r rest)
      ++ scanRows headers start terms kws sect (idx + 1) rest

/-- The `found` list of `deep_search_in_table_static`. -/
def deepFound (t : Table) (hs : List String × Nat) (terms kws : List String) (sect : String) :
    List Record :=
  scanRows hs.1 hs.2 terms kws sect 0 t.rows

/-- The section-boundary marker record of DeepRowSearch (also reused verbatim
by the keyword fallback in `handle_no_matches_static`). -/
def deepSepRec (sect : String) : Record :=
  { Category := "--- " ++ sect ++ " - SEARCH RESULTS IN TABLE ---", Value := "",
    Section := sect, Source := "Deep Table Search Section Header" }

/-- `emit_cached_header_row`: first header label (or `"blank"`) as Category,
the remaining non-blank labels semicolon-joined (or `"blank"`) as Value. -/
def emit_cached_header_row (headers : List String) (sect : String) : Record :=
  let first := match headers with
    | [] => "blank"
    | h :: _ => if strTrim h = "" then "blank" else strTrim h
  let rest := (headers.drop 1).filter (fun h => strTrim h ≠ "")
  let j := joinSep "; " rest
  { Category := first, Value := if j = "" then "blank" else j,
    Section := sect, Source := "Deep Table Search – Table Headers" }

/-- `deep_search_in_table_static`: returns `(matched, records appended)`.
`hs` is the cached `(headers, data_start_idx)` pair for this table. -/
def deep_search_in_table_static (t : Table) (hs : List String × Nat)
    (terms kws : List String) (sect : String) : Bool × List Record :=
  if t.rows.isEmpty then (false, [])
  else
    let found := deepFound t hs terms kws sect
    if found.isEmpty then (false, [])
    else (true, deepSepRec sect :: emit_cached_header_row hs.1 sect :: found)

/-! ## TableRecordFormatter (`add_table_to_data_static`) -/

/-- Does a (stripped) header match the multi-year pattern `^\d{4}-\d{4}$`? -/
def yearPat (s : String) : Bool :=
  match s.data with
  | [a, b, c, d, e, f, g, h, i] =>
    a.isDigit && b.isDigit && c.isDigit && d.isDigit && e == '-'
      && f.isDigit && g.isDigit && h.isDigit && i.isDigit
  | _ => false

/-- The `"{year}: {cell}"` pair for an indexed year header and a row, as the
source builds it: index `p.1` into the row, cell kept when its stripped text
is non-empty and not the dash. -/
def yearPairF (row : List String) (p : Nat × String) : Option String :=
  if p.1 < row.length then
    let val := strTrim (row.getD p.1 "")
    if val ≠ "" ∧ val ≠ "-" then some (p.2 ++ ": " ++ val) else none
  else none

/-- One multi-year row of `add_table_to_data_static`: the `k`-th year header
(1-based, via `enumerate(year_headers, start=1)`) is paired with `row[k]`. -/
def multiYearRow (year_headers : List String) (sect src : String) (row : List String) :
    Option Record :=
  if row.length < 2 then none
  else
    let parts := (List.enumFrom 1 year_headers).filterMap (yearPairF row)
    if parts.isEmpty then none
    else some { Category := strTrim (row.getD 0 ""), Value := joinSep "; " parts,
                Section := sect, Source := src ++ " (all years)" }

/-- One label-based row of `add_table_to_data_static`. -/
def labelRow (sect src : String) (row : List String) : Option Record :=
  if row.isEmpty then none
  else
    some { Category := strTrim (row.getD 0 ""),
           Value := joinSep "; " (((row.drop 1).filter
             (fun v => strTrim v ≠ "" ∧ v ≠ "-")).map strTrim),
           Section := sect, Source := src }

/-- The `"{header}: {cell}"` part for one indexed cell in standard-columnar
mode: skipped when the stripped cell is empty or the dash; the header label
falls back to `Col{i}` when missing or blank. -/
def colPairF (headers : List String) (p : Nat × String) : Option String :=
  let val := strTrim p.2
  if val = "" ∨ val = "-" then none
  else
    let h := strTrim (headers.getD p.1 "")
    some ((if h ≠ "" then h else "Col" ++ toString p.1) ++ ": " ++ val)

/-- One standard-columnar row of `add_table_to_data_static`. -/
def columnarRow (headers : List String) (sect src : String) (row : List String) :
    Option Record :=
  if row.isEmpty then none
  else
    let parts := (List.enumFrom 1 (row.drop 1)).filterMap (colPairF headers)
    if parts.isEmpty then none
    else some { Category := strTrim (row.getD 0 ""), Value := joinSep "; " parts,
                Section := sect, Source := src }

/-- `add_table_to_data_static`: the three-mode formatter. Multi-year mode when
some header after the first matches `yearPat`; label mode when headers are
absent or a single blank; standard columnar otherwise. -/
def add_table_to_data_static (headers : List String) (data_rows : List (List String))
    (sect src : String) : List Record :=
  let year_headers := (headers.drop 1).filter (fun h => yearPat (strTrim h))
  if !year_headers.isEmpty then
    data_rows.filterMap (multiYearRow year_headers sect src)
  else if headers.isEmpty ∨ (headers.length = 1 ∧ strTrim (headers.getD 0 "") = "") then
    data_rows.filterMap (labelRow sect src)
  else
    data_rows.filterMap (columnarRow headers sect src)

/-- Claim C1's pairing rule for one indexed header: skip the category column,
skip headers that do not match the year pattern, and pair a matching header
at absolute column `p.1` with the cell `row[p.1]` **under that header's own
column**. -/
def yearPairClaimF (row : List String) (p : Nat × String) : Option String :=
  if p.1 = 0 then none
  else if !(yearPat (strTrim p.2)) then none
  else yearPairF row p

/-- Formalisation of claim C1's multi-year rule, for comparison with
`add_table_to_data_static`: each header matching the year pattern is paired
with the cell under that header's own column, a pair being included exactly
when that (stripped) cell is non-empty and not `"-"`; rows producing zero
pairs emit no record. -/
def add_table_multi_year_claim (headers : List String) (data_rows : List (List String))
    (sect src : String) : List Record :=
  data_rows.filterMap (fun row =>
    let parts := (List.enum headers).filterMap (yearPairClaimF row)
    if parts.isEmpty then none
    else some { Category := strTrim (row.getD 0 ""), Value := joinSep "; " parts,
                Section := sect, Source := src ++ " (all years)" })

/-! ## `process_regular_table_static` (entire-table dump) -/

/-- `process_regular_table_static`: emits a table-content marker, the cached
header row, then every data row raw (with `blankSub` on the value cells);
returns `(emitted-anything, records)`. -/
def process_regular_table_static (t : Table) (hs : List String × Nat)
    (sect : String) (index : Nat) : Bool × List Record :=
  if t.rows.isEmpty then (false, [])
  else
    let data_rows := (t.rows.drop hs.2).filterMap
      (fun r => if r.tds.isEmpty then none else some (rawVals r))
    if data_rows.isEmpty then (false, [])
    else
      (true,
        { Category := "--- " ++ sect ++ " - ENTIRE TABLE " ++ toString (index + 1)
            ++ " CONTENT ---",
          Value := "", Section := sect,
          Source := "Full Table " ++ toString (index + 1) ++ " (Header)" }
        :: emit_cached_header_row hs.1 sect
        :: data_rows.map (fun rv =>
            { Category := (let c := strTrim (rv.getD 0 ""); if c = "" then "blank" else c),
              Value := (let j := joinSep "; " ((rv.drop 1).map blankSub);
                        if j = "" then "blank" else j),
              Section := sect, Source := "Full Table " ++ toString (index + 1) }))

/-! ## GraphExtractor (`extract_graph_data_static`, `process_graph_table_static`) -/

/-- Take the leading digit run of a char list, returning it and the rest. -/
def takeDigits : List Char → List Char × List Char
  | [] => ([], [])
  | c :: cs =>
    if c.isDigit then
      let p := takeDigits cs
      (c :: p.1, p.2)
    else ([], c :: cs)

/-- Does `(\d+(?:\.\d+)?)%` match at the head of the list? Returns the
captured number. -/
def numPercentAt (l : List Char) : Option String :=
  let p := takeDigits l
  if p.1.isEmpty then none
  else
    match p.2 with
    | '%' :: _ => some ⟨p.1⟩
    | '.' :: rest2 =>
      let q := takeDigits rest2
      if q.1.isEmpty then none
      else
        match q.2 with
        | '%' :: _ => some ⟨p.1 ++ '.' :: q.1⟩
        | _ => none
    | _ => none

/-- Leftmost match of `(\d+(?:\.\d+)?)%` in the list. -/
def firstNumPercent : List Char → Option String
  | [] => none
  | c :: cs =>
    match numPercentAt (c :: cs) with
    | some s => some s
    | none => firstNumPercent cs

/-- Drop everything up to and including the first occurrence of `pat`
(`none` when `pat` does not occur). -/
def dropAfterSub (pat : List Char) : List Char → Option (List Char)
  | [] => if prefixB pat [] then some [] else none
  | c :: cs =>
    if prefixB pat (c :: cs) then some ((c :: cs).drop pat.length)
    else dropAfterSub pat cs

/-- Embedding of `re.search(rf"{TERM}.*?(\d+(?:\.\d+)?)%", alt_upper)`:
the first number-percent after the first occurrence of the uppercased term
in the uppercased alt text. -/
def extract_metric (alt term : String) : Option String :=
  match dropAfterSub (strUpper term).data (strUpper alt).data with
  | none => none
  | some rest => firstNumPercent rest

/-- Per-image data collected by `extract_graph_data_static`. -/
structure ImageInfo where
  alt : String
  src : String
  extracted : List (String × String)
deriving DecidableEq, Repr

/-- The dictionary `extract_graph_data_static` builds. -/
structure GraphData where
  title : String
  images : List ImageInfo
  textData : List (String × String)
deriving DecidableEq, Repr

/-- The text of the first `thead th` element of a container, when present. -/
def theadThOf (t : Table) : Option String :=
  (catLists ((t.thead.getD []).map (fun r => r.ths))).head?

/-- `extract_graph_data_static`: title from the first `thead th` (else the
`"Unknown Graph"` sentinel), per-image alt/src plus term metrics from the
`TERM...number%` pattern; the text-data branch of the source is an elided
sketch and stays empty. -/
def extract_graph_data_static (g : Table) (terms : List String) : GraphData :=
  let title := match theadThOf g with
    | some s => strTrim s
    | none => "Unknown Graph"
  let images := (g.imgs.map (fun p =>
      { alt := p.1, src := p.2,
        extracted := terms.filterMap (fun term =>
          (extract_metric p.1 term).map (fun n => (term, n))) : ImageInfo })).filter
    (fun info => !info.extracted.isEmpty || !(info.alt == ""))
  { title := title, images := images, textData := [] }

/-- Python `str(val).replace(".", "", 1)`. -/
def removeFirstDot : List Char → List Char
  | [] => []
  | c :: cs => if c == '.' then cs else c :: removeFirstDot cs

/-- Python `str(val).replace(".", "", 1).isdigit()`. -/
def isNumericish (v : String) : Bool :=
  let l := removeFirstDot v.data
  !l.isEmpty && l.all Char.isDigit

/-- Embedding of Python `str.endswith`. -/
def strEndsWith (s suf : String) : Bool :=
  prefixB suf.data.reverse s.data.reverse

/-- `process_graph_table_static`: marker, title, per-image description and
metric records for one graph container. -/
def process_graph_table_static (g : Table) (index : Nat) (terms : List String) :
    List Record :=
  let gd := extract_graph_data_static g terms
  if gd.title = "Unknown Graph" ∧ gd.images = [] ∧ gd.textData = [] then []
  else
    let source_prefix := "Graph " ++ toString (index + 1) ++ " (" ++ gd.title ++ ")"
    ({ Category := "--- " ++ g.sect ++ " - " ++ source_prefix ++ " ---", Value := "",
       Section := g.sect, Source := source_prefix ++ " (Header)" } : Record)
    :: ((if gd.title ≠ "Unknown Graph" then
          [{ Category := "Graph Title", Value := gd.title, Section := g.sect,
             Source := source_prefix : Record }]
        else [])
      ++ catLists ((List.enumFrom 1 gd.images).map (fun p =>
          (if p.2.alt ≠ "" then
            [{ Category := "Image " ++ toString p.1 ++ " Description", Value := p.2.alt,
               Section := g.sect, Source := source_prefix : Record }]
          else [])
          ++ p.2.extracted.map (fun m =>
            { Category := m.1,
              Value := if !(strEndsWith m.2 "%") && isNumericish m.2
                       then m.2 ++ "%" else m.2,
              Section := g.sect, Source := source_prefix ++ " - Image " ++ toString p.1 })))
      ++ gd.textData.map (fun m =>
          { Category := m.1, Value := m.2, Section := g.sect,
            Source := source_prefix ++ " - Text Data" }))

/-! ## Discovery (`find_matching_tables_static`, `find_matching_graph_tables_static`) -/

/-- All `thead th` texts of a table (CSS `thead th` across all thead rows). -/
def theadThTexts (t : Table) : List String :=
  catLists ((t.thead.getD []).map (fun r => r.ths))

/-- `find_matching_tables_static`: aggregate the table text, captions,
`thead th` texts and (valid) section name; record a term match, else an
all-keywords match. -/
def find_matching_tables_static (tables : List Table) (terms kws : List String) :
    List MatchInfo :=
  (List.enum tables).filterMap (fun p =>
    let t := p.2
    let texts := [strLower t.text] ++ t.captions.map strLower
      ++ (theadThTexts t).map strLower
      ++ (if t.sect ≠ "" ∧ !(containsSub t.sect "Unknown Section")
          then [strLower t.sect] else [])
    let combined := joinSep " " (texts.filter (fun s => s ≠ ""))
    match terms.find? (fun term => containsSub combined (strLower term)) with
    | some term =>
      some { index := p.1, elem := t,
             matchType := "exact_term '" ++ term ++ "' in table_text/caption/thead/section",
             sect := t.sect }
    | none =>
      if !kws.isEmpty ∧ keyword_match_static combined kws then
        some { index := p.1, elem := t,
               matchType := "all_keywords in table_text/caption/thead/section",
               sect := t.sect }
      else none)

/-- The `"thead th, caption"` title lookup of the graph matcher: in document
order a `<caption>` (mandatorily the first child of a table) precedes the
`<thead>`, so the first caption wins when one exists. -/
def graphTitleElem (g : Table) : Option String :=
  match g.captions with
  | c :: _ => some c
  | [] => (theadThTexts g).head?

/-- The `title_text` of the effective graph matcher: the `"thead th, caption"`
text, else the `svg title` text, stripped and lowered. -/
def graphTitleText (g : Table) : String :=
  let t0 := match graphTitleElem g with
    | some s => strLower (strTrim s)
    | none => ""
  if t0 = "" then
    match g.svgTitle with
    | some s => strLower (strTrim s)
    | none => ""
  else t0

/-- The `alt_text` of the effective graph matcher: non-blank stripped, lowered
image alts, space-joined. -/
def graphAltText (g : Table) : String :=
  joinSep " " ((g.imgs.map (fun p => strLower (strTrim p.1))).filter (fun a => a ≠ ""))

/-- The effective `find_matching_graph_tables_static` (the module's **second**
definition of that name, which shadows the first): a term match against
title/alt/container text, else an all-keywords match; no other heuristic. -/
def find_matching_graph_tables_static (graphs : List Table) (terms kws : List String) :
    List MatchInfo :=
  (List.enum graphs).filterMap (fun p =>
    let g := p.2
    let title_text := graphTitleText g
    let alt_text := graphAltText g
    let container_text := strLower (strTrim g.text)
    match terms.find? (fun term =>
        containsSub title_text (strLower term) || containsSub alt_text (strLower term)
          || containsSub container_text (strLower term)) with
    | some term =>
      some { index := p.1, elem := g,
             matchType := "term_match_graph (" ++ term ++ ")", sect := g.sect }
    | none =>
      if !kws.isEmpty ∧ (keyword_match_static container_text kws
          || keyword_match_static title_text kws || keyword_match_static alt_text kws) then
        some { index := p.1, elem := g, matchType := "keyword_graph", sect := g.sect }
      else none)

/-- The module's **first** (shadowed, dead) definition of
`find_matching_graph_tables_static`: term match on image alt text, else a
percent-sign heuristic, else any non-empty alt text. Kept here to document
what the Python name rebinding discards; `kws` is unused exactly as in the
source. -/
def find_matching_graph_tables_static_v1 (graphs : List Table)
    (terms kws : List String) : List MatchInfo :=
  (List.enum graphs).filterMap (fun p =>
    let g := p.2
    let alt_text := strLower (strTrim (joinSep " " (g.imgs.map (fun q => q.1))))
    match terms.find? (fun term => containsSub alt_text (strLower term)) with
    | some term =>
      some { index := p.1, elem := g,
             matchType := "term_match_graph (" ++ term ++ ")", sect := g.sect }
    | none =>
      if containsSub alt_text "%" then
        some { index := p.1, elem := g, matchType := "percent_graph", sect := g.sect }
      else if alt_text ≠ "" then
        some { index := p.1, elem := g, matchType := "any_graph_with_alt", sect := g.sect }
      else none)

/-! ## MatchOrchestrator (`process_matching_elements_static`,
`handle_no_matches_static`, `find_and_process_tables_graphs_static`) -/

/-- The table half of `process_matching_elements_static`: per matched table,
DeepRowSearch; on no deep match, fall back to the entire-table dump
`process_regular_table_static`. Returns `(data_added, records appended)`. -/
def process_matching_elements_static :
    List MatchInfo → (Nat → List String × Nat) → List String → List String →
      Bool × List Record
  | [], _, _, _ => (false, [])
  | m :: rest, cache, terms, kws =>
    let ds := deep_search_in_table_static m.elem (cache m.index) terms kws m.sect
    let headOut := if ds.1 then ds
      else process_regular_table_static m.elem (cache m.index) m.sect m.index
    let tailOut := process_matching_elements_static rest cache terms kws
    (headOut.1 || tailOut.1, headOut.2 ++ tailOut.2)

/-- The graph half of `process_matching_elements_static`: every matched graph
is processed and unconditionally sets `data_added`. -/
def process_matching_graphs_static : List MatchInfo → List String → Bool × List Record
  | [], _ => (false, [])
  | m :: rest, terms =>
    let out := process_graph_table_static m.elem m.index terms
    let tailOut := process_matching_graphs_static rest terms
    (true, out ++ tailOut.2)

/-- `handle_no_matches_static`: DeepRowSearch over **every** data table;
when that finds nothing and keywords exist, the broad keyword fallback emits,
for each table whose raw text keyword-matches, a section-boundary marker
followed by the entire-table dump. The graph-match argument is unused,
exactly as in the source. -/
def handle_no_matches_static (tables : List Table) (gmatches : List MatchInfo)
    (cache : Nat → List String × Nat) (terms kws : List String) : List Record :=
  let deepOuts := (List.enum tables).map (fun p =>
    deep_search_in_table_static p.2 (cache p.1) terms kws p.2.sect)
  let deep_found := deepOuts.any (fun d => d.1)
  let deepRecs := catLists (deepOuts.map (fun d => d.2))
  if !deep_found && !kws.isEmpty then
    deepRecs ++ catLists
      (((List.enum tables).filter (fun p => keyword_match_static (strLower p.2.text) kws)).map
        (fun p => deepSepRec p.2.sect
          :: (process_regular_table_static p.2 (cache p.1) p.2.sect p.1).2))
  else deepRecs

/-- The data tables of a page: every `<table>` whose class lacks `graphtabs`. -/
def dataTablesOf (allTables : List Table) : List Table :=
  allTables.filter (fun t => !(containsSub t.cls "graphtabs"))

/-- The graph containers of a page: every `<table>` classed `graphtabs`. -/
def graphTablesOf (allTables : List Table) : List Table :=
  allTables.filter (fun t => containsSub t.cls "graphtabs")

/-- The per-page header cache over the data tables
(`headers_cache.get(i, ([], 0))`). -/
def cacheOf (dts : List Table) : Nat → List String × Nat := fun i =>
  match dts.get? i with
  | some t => get_table_headers_and_data_start_idx_static t t.rows
  | none => ([], 0)

/-- `find_and_process_tables_graphs_static`: split tables from graph
containers, cache headers, discover matches, process the two match lists, and
run the no-match fallback cascade when nothing was added. -/
def find_and_process_tables_graphs_static (allTables : List Table)
    (terms kws : List String) : List Record :=
  let data_tables := dataTablesOf allTables
  let graph_tables := graphTablesOf allTables
  let cache := cacheOf data_tables
  let matching_tables := find_matching_tables_static data_tables terms kws
  let matching_graphs := find_matching_graph_tables_static graph_tables terms kws
  let tOut := process_matching_elements_static matching_tables cache terms kws
  let gOut := process_matching_graphs_static matching_graphs terms
  if tOut.1 || gOut.1 then tOut.2 ++ gOut.2
  else tOut.2 ++ gOut.2 ++ handle_no_matches_static data_tables matching_graphs cache terms kws

/-! ## Helper lemmas about the embedded functions -/

/-- Unfolding equation for `keyword_match_static`. -/
theorem keyword_match_static_eq (text : String) (kws : List String) :
    keyword_match_static text kws
      = if kws.isEmpty then false
        else kws.all (fun k => containsSub (strLower text) (strLower k)) := rfl

/-- A `filterMap` that fails everywhere is empty. -/
theorem filterMap_eq_nil_all (f : α → Option β) (l : List α)
    (h : ∀ a ∈ l, f a = none) : l.filterMap f = [] := by
  induction l with
  | nil => rfl
  | cons a as ih =>
    simp only [List.filterMap_cons, h a (by simp)]
    exact ih (fun x hx => h x (by simp [hx]))

/-- `any` over a list on which the predicate is everywhere false. -/
theorem any_eq_false_all (p : α → Bool) (l : List α) (h : ∀ a ∈ l, p a = false) :
    l.any p = false := by
  induction l with
  | nil => rfl
  | cons a as ih =>
    simp only [List.any_cons, h a (by simp), Bool.false_or]
    exact ih (fun x hx => h x (by simp [hx]))

/-- When DeepRowSearch reports no match it has emitted nothing. -/
theorem deep_search_false_nil (t : Table) (hs : List String × Nat)
    (terms kws : List String) (sect : String)
    (h : (deep_search_in_table_static t hs terms kws sect).1 = false) :
    (deep_search_in_table_static t hs terms kws sect).2 = [] := by
  unfold deep_search_in_table_static at *
  cases h1 : t.rows.isEmpty with
  | true => simp [h1]
  | false =>
    cases h2 : (deepFound t hs terms kws sect).isEmpty with
    | true => simp [h1, h2]
    | false => simp [h1, h2] at h

/-- Anything a row emits is somewhere in the scan of any list containing that
row (with start index 0). -/
theorem mem_scanRows_of_mem_emitRow (headers terms kws : List String) (sect : String)
    (d : Row) (tail : List Row) (x : Record) (hx : x ∈ emitRow headers terms kws sect d tail) :
    ∀ (mid : List Row) (idx : Nat),
      x ∈ scanRows headers 0 terms kws sect idx (mid ++ d :: tail) := by
  intro mid
  induction mid with
  | nil =>
    intro idx
    simp only [List.nil_append, scanRows]
    exact List.mem_append.mpr (Or.inl (by simpa using hx))
  | cons m ms ih =>
    intro idx
    simp only [List.cons_append, scanRows]
    exact List.mem_append.mpr (Or.inr (ih (idx + 1)))

/-- Replace a cell that is exactly the placeholder dash by the empty string
(the other "absent value" marker). -/
def dashToEmpty (v : String) : String :=
  if v = "-" then "" else v

/-- The label-mode value list ignores the dash-to-empty replacement. -/
theorem label_vals_dash (rest : List String) :
    ((rest.map dashToEmpty).filter (fun v => strTrim v ≠ "" ∧ v ≠ "-")).map strTrim
      = (rest.filter (fun v => strTrim v ≠ "" ∧ v ≠ "-")).map strTrim := by
  induction rest with
  | nil => rfl
  | cons v vs ih =>
    simp only [List.map_cons, List.filter_cons]
    by_cases hv : v = "-"
    · subst hv
      rw [show dashToEmpty "-" = "" from rfl]
      rw [if_neg (by decide), if_neg (by decide)]
      exact ih
    · rw [show dashToEmpty v = v from if_neg hv]
      by_cases hk : strTrim v ≠ "" ∧ v ≠ "-"
      · rw [if_pos (decide_eq_true hk), if_pos (decide_eq_true hk)]
        simp only [List.map_cons, ih]
      · rw [if_neg (by simpa using hk), if_neg (by simpa using hk)]
        exact ih

/-! ## Claim C5 -/

/-- Claim C5: `keyword_match` is true iff every keyword, case-folded, is a
substring of the case-folded text, and is false on an empty keyword set; the
term test is true iff some term, case-folded, is a substring of the
case-folded text; concrete retention/rate instances. -/
theorem claim_C5 : ∀ (text : String) (terms kws : List String),
    (keyword_match_static text kws = true ↔
      kws ≠ [] ∧ ∀ k ∈ kws, List.IsInfix (strLower k).data (strLower text).data)
    ∧ (term_match_static text terms = true ↔
      ∃ t ∈ terms, List.IsInfix (strLower t).data (strLower text).data)
    ∧ keyword_match_static "spring retention figures" ["retention", "rate"] = false
    ∧ keyword_match_static "the retention rate overall" ["retention", "rate"] = true
    ∧ keyword_match_static "rate first, retention later" ["retention", "rate"] = true := by
  intro text terms kws
  refine ⟨?_, ?_, by decide, by decide, by decide⟩
  · rw [keyword_match_static_eq]
    by_cases hk : kws = []
    · subst hk; simp
    · rw [if_neg (by simpa using hk)]
      rw [List.all_eq_true]
      simp only [containsSub_iff]
      constructor
      · intro h; exact ⟨hk, h⟩
      · intro h; exact h.2
  · unfold term_match_static
    rw [List.any_eq_true]
    simp only [containsSub_iff]

/-! ## Claim C6 -/

/-- Claim C6: DeepRowSearch either reports no match having appended nothing,
or reports a match having appended, in order, one section-boundary marker,
one header-summary record, and then the (non-empty) matched-row records. -/
theorem claim_C6 : ∀ (t : Table) (hs : List String × Nat) (terms kws : List String)
    (sect : String),
    ((deep_search_in_table_static t hs terms kws sect).1 = false
      ∧ (deep_search_in_table_static t hs terms kws sect).2 = [])
    ∨ ((deep_search_in_table_static t hs terms kws sect).1 = true
      ∧ deepFound t hs terms kws sect ≠ []
      ∧ (deep_search_in_table_static t hs terms kws sect).2
          = deepSepRec sect :: emit_cached_header_row hs.1 sect
              :: deepFound t hs terms kws sect) := by
  intro t hs terms kws sect
  cases h1 : t.rows.isEmpty with
  | true =>
    left
    constructor <;> simp [deep_search_in_table_static, h1]
  | false =>
    cases h2 : (deepFound t hs terms kws sect).isEmpty with
    | true =>
      left
      constructor <;> simp [deep_search_in_table_static, h1, h2]
    | false =>
      right
      refine ⟨?_, ?_, ?_⟩
      · simp [deep_search_in_table_static, h1, h2]
      · intro hcon
        rw [hcon] at h2
        simp at h2
      · simp [deep_search_in_table_static, h1, h2]

/-! ## Claim C9 -/

/-- Claim C9: HeaderInference returns `([], 0)` for an empty table; prefers
the last `<thead>` row (with `data_start_index` equal to the number of thead
rows) whenever the thead has header cells, regardless of the rest of the
table; and returns `([], 0)` for a table with no header markup. -/
theorem claim_C9 : ∀ (t : Table) (theadRows : List TheadRow) (lastRow : TheadRow),
    (t.rows = [] → get_table_headers_and_data_start_idx_static t t.rows = ([], 0))
    ∧ (t.rows ≠ [] → t.thead = some theadRows → theadRows.getLast? = some lastRow →
        (lastRow.ths ≠ [] ∨ lastRow.tds ≠ []) →
        get_table_headers_and_data_start_idx_static t t.rows
          = (headLabels (if lastRow.ths.isEmpty then lastRow.tds else lastRow.ths),
             theadRows.length))
    ∧ (t.thead = none → (∀ r ∈ t.rows.take 1, r.ths = []) →
        get_table_headers_and_data_start_idx_static t t.rows = ([], 0)) := by
  intro t theadRows lastRow
  refine ⟨?_, ?_, ?_⟩
  · intro h
    unfold get_table_headers_and_data_start_idx_static
    rw [h]
    rfl
  · intro h1 h2 h3 h4
    unfold get_table_headers_and_data_start_idx_static
    rw [if_neg (by simpa using h1), h2]
    dsimp only
    rw [h3]
    dsimp only
    have hcells : (if lastRow.ths.isEmpty = true then lastRow.tds else lastRow.ths) ≠ [] := by
      cases h5 : lastRow.ths.isEmpty with
      | true =>
        rw [if_pos rfl]
        rcases h4 with h | h
        · exact absurd (by simpa using h5) h
        · exact h
      | false =>
        rw [if_neg (by simp)]
        intro hc
        rw [hc] at h5
        simp at h5
    rw [if_neg (by simpa using hcells)]
  · intro h1 h2
    unfold get_table_headers_and_data_start_idx_static
    rw [h1]
    cases hr : t.rows with
    | nil => rfl
    | cons r rs =>
      have hths : r.ths = [] := h2 r (by rw [hr]; simp)
      simp [headersFromFirstRow, hths]

/-- Concrete table for the C9 witness: a `<thead>` header row plus a body row
whose cells are also header-tagged. -/
def tblC9 : Table :=
  { cls := "", text := "", captions := [],
    thead := some [{ ths := ["Year", "Rate"], tds := [] }],
    rows := [
      { cls := "", ths := ["Year", "Rate"], tds := [] },
      { cls := "", ths := ["NotHeader"], tds := [{ text := "x", imgAlt := none }] }
    ],
    imgs := [], svgTitle := none, sect := "S" }

/-- Witness for C9: on `tblC9` the thead labels win and data starts at row 1. -/
theorem claim_C9_witness :
    get_table_headers_and_data_start_idx_static tblC9 tblC9.rows = (["Year", "Rate"], 1) := by
  have h := (claim_C9 tblC9 [{ ths := ["Year", "Rate"], tds := [] }]
      { ths := ["Year", "Rate"], tds := [] }).2.1
    (by decide) (by decide) (by decide) (Or.inl (by decide))
  rw [h]
  decide

/-! ## Claim C7 -/

/-- Concrete table for C7: one matching group-header row, three detail rows,
a second (non-matching) group-header row and its detail row. -/
def tblC7 : Table :=
  { cls := "", text := "", captions := [], thead := none,
    rows := [
      { cls := "subrow", ths := [], tds := [{ text := "Alpha Group", imgAlt := none }] },
      { cls := "", ths := [],
        tds := [{ text := "Item one", imgAlt := none }, { text := "1", imgAlt := none }] },
      { cls := "", ths := [],
        tds := [{ text := "Item two", imgAlt := none }, { text := "2", imgAlt := none }] },
      { cls := "", ths := [],
        tds := [{ text := "Item three", imgAlt := none }, { text := "3", imgAlt := none }] },
      { cls := "subrow", ths := [], tds := [{ text := "Beta Group", imgAlt := none }] },
      { cls := "", ths := [],
        tds := [{ text := "Beta item", imgAlt := none }, { text := "9", imgAlt := none }] }
    ],
    imgs := [], svgTitle := none, sect := "S" }

/-- Claim C7: a matching group-header row emits exactly one group record
followed by the detail records of the rows up to (and excluding) the next
group-header row or the end of the table — one detail record per consumed
row when every consumed row has cells; on `tblC7`, a match on the first
group emits the group record plus exactly its three detail rows and nothing
from the second group. -/
theorem claim_C7 :
    (∀ (headers terms kws : List String) (sect : String) (r : Row) (rest : List Row),
      r.tds ≠ [] →
      containsSub r.cls "subrow" = true →
      ((rowMatchData headers terms kws r).1 || (rowMatchData headers terms kws r).2) = true →
      emitRow headers terms kws sect r rest
        = groupRecOf sect (rowVals r)
            :: (rest.takeWhile (fun det => !(containsSub det.cls "subrow"))).filterMap
                 (detailRecOf sect)
      ∧ ((∀ d ∈ rest.takeWhile (fun det => !(containsSub det.cls "subrow")), d.tds ≠ []) →
          ((rest.takeWhile (fun det => !(containsSub det.cls "subrow"))).filterMap
              (detailRecOf sect)).length
            = (rest.takeWhile (fun det => !(containsSub det.cls "subrow"))).length))
    ∧ deep_search_in_table_static tblC7 ([], 0) ["alpha"] [] "S"
        = (true,
           [{ Category := "--- S - SEARCH RESULTS IN TABLE ---", Value := "", Section := "S",
              Source := "Deep Table Search Section Header" },
            { Category := "blank", Value := "blank", Section := "S",
              Source := "Deep Table Search – Table Headers" },
            { Category := "Alpha Group", Value := "", Section := "S",
              Source := "DeepSearch - Subrow Group" },
            { Category := "  ↳ Item one", Value := "1", Section := "S",
              Source := "DeepSearch - Subrow Detail" },
            { Category := "  ↳ Item two", Value := "2", Section := "S",
              Source := "DeepSearch - Subrow Detail" },
            { Category := "  ↳ Item three", Value := "3", Section := "S",
              Source := "DeepSearch - Subrow Detail" }]) := by
  refine ⟨?_, by decide⟩
  intro headers terms kws sect r rest h1 h2 h3
  constructor
  · unfold emitRow
    rw [if_neg (by simpa using h1)]
    dsimp only
    rw [if_pos h3, if_pos h2]
    rfl
  · intro hall
    exact length_filterMap_all _ _ (fun d hd => by
      unfold detailRecOf
      rw [if_neg (by simpa using hall d hd)]
      rfl)

/-- Witness rows for C7. -/
def rowC7g : Row :=
  { cls := "subrow", ths := [], tds := [{ text := "Alpha Group", imgAlt := none }] }

/-- Witness detail row for C7. -/
def rowC7d : Row :=
  { cls := "", ths := [],
    tds := [{ text := "Alpha detail", imgAlt := none }, { text := "5", imgAlt := none }] }

/-- Witness for C7: the group-emission equation at a concrete matching row. -/
theorem claim_C7_witness :
    emitRow [] ["alpha"] [] "S" rowC7g [rowC7d]
      = groupRecOf "S" (rowVals rowC7g)
          :: ([rowC7d].takeWhile (fun det => !(containsSub det.cls "subrow"))).filterMap
               (detailRecOf "S") :=
  (claim_C7.1 [] ["alpha"] [] "S" rowC7g [rowC7d] (by decide) (by decide) (by decide)).1

/-! ## Claim C10 -/

/-- Claim C10 (implicit behaviour): after a matching group-header row has
emitted its detail rows, the main scan resumes at the next row, so a detail
row that independently matches is emitted again as a normal record (first
cell without the indent marker) — its content appears twice, once as a
detail record and once as a distinct normal record. -/
theorem claim_C10 : ∀ (headers terms kws : List String) (sect : String)
    (g d : Row) (mid tail : List Row),
    containsSub g.cls "subrow" = true → g.tds ≠ [] →
    ((rowMatchData headers terms kws g).1 || (rowMatchData headers terms kws g).2) = true →
    (∀ r ∈ mid, containsSub r.cls "subrow" = false) →
    containsSub d.cls "subrow" = false → d.tds ≠ [] →
    ((rowMatchData headers terms kws d).1 || (rowMatchData headers terms kws d).2) = true →
    detailRecord sect d ∈ scanRows headers 0 terms kws sect 0 (g :: (mid ++ d :: tail))
    ∧ normalRecOf sect (rowVals d) (rowMatchData headers terms kws d).1
        ∈ scanRows headers 0 terms kws sect 0 (g :: (mid ++ d :: tail))
    ∧ detailRecord sect d ≠ normalRecOf sect (rowVals d) (rowMatchData headers terms kws d).1 := by
  intro headers terms kws sect g d mid tail hg1 hg2 hg3 hmid hd1 hd2 hd3
  have hscan : scanRows headers 0 terms kws sect 0 (g :: (mid ++ d :: tail))
      = emitRow headers terms kws sect g (mid ++ d :: tail)
          ++ scanRows headers 0 terms kws sect 1 (mid ++ d :: tail) := by
    simp [scanRows]
  have htake : (mid ++ d :: tail).takeWhile (fun det => !(containsSub det.cls "subrow"))
      = mid ++ d :: tail.takeWhile (fun det => !(containsSub det.cls "subrow")) := by
    rw [takeWhile_append_all _ mid _ (fun a ha => by simp [hmid a ha])]
    simp [List.takeWhile_cons, hd1]
  have hemitg : emitRow headers terms kws sect g (mid ++ d :: tail)
      = groupRecOf sect (rowVals g)
          :: ((mid ++ d :: tail).takeWhile (fun det => !(containsSub det.cls "subrow"))).filterMap
               (detailRecOf sect) := by
    unfold emitRow
    rw [if_neg (by simpa using hg2)]
    dsimp only
    rw [if_pos hg3, if_pos hg1]
    rfl
  refine ⟨?_, ?_, ?_⟩
  · rw [hscan]
    refine List.mem_append.mpr (Or.inl ?_)
    rw [hemitg, htake]
    refine List.mem_cons.mpr (Or.inr ?_)
    refine List.mem_filterMap.mpr ⟨d, by simp, ?_⟩
    unfold detailRecOf
    rw [if_neg (by simpa using hd2)]
  · rw [hscan]
    refine List.mem_append.mpr (Or.inr ?_)
    have hemitd : emitRow headers terms kws sect d tail
        = [normalRecOf sect (rowVals d) (rowMatchData headers terms kws d).1] := by
      unfold emitRow
      rw [if_neg (by simpa using hd2)]
      dsimp only
      rw [if_pos hd3, if_neg (by simp [hd1])]
      rfl
    exact mem_scanRows_of_mem_emitRow headers terms kws sect d tail _
      (by rw [hemitd]; simp) mid 1
  · intro hcon
    have hsrc := congrArg Record.Source hcon
    simp only [detailRecord, normalRecOf] at hsrc
    rcases Bool.eq_false_or_eq_true ((rowMatchData headers terms kws d).1) with hb | hb <;>
      rw [hb] at hsrc <;> exact absurd hsrc (by decide)

/-- Witness group row for C10. -/
def rowC10g : Row :=
  { cls := "subrow", ths := [], tds := [{ text := "Alpha heading", imgAlt := none }] }

/-- Witness detail row for C10 (independently matches the term). -/
def rowC10d : Row :=
  { cls := "", ths := [],
    tds := [{ text := "Alpha item", imgAlt := none }, { text := "7", imgAlt := none }] }

/-- Witness for C10: on a concrete two-row group, the detail row appears both
as a detail record and as a normal record. -/
theorem claim_C10_witness :
    detailRecord "S" rowC10d ∈ scanRows [] 0 ["alpha"] [] "S" 0 (rowC10g :: ([] ++ rowC10d :: []))
    ∧ normalRecOf "S" (rowVals rowC10d) (rowMatchData [] ["alpha"] [] rowC10d).1
        ∈ scanRows [] 0 ["alpha"] [] "S" 0 (rowC10g :: ([] ++ rowC10d :: [])) := by
  have h := claim_C10 [] ["alpha"] [] "S" rowC10g rowC10d [] [] (by decide) (by decide)
    (by decide) (by intro r hr; cases hr) (by decide) (by decide) (by decide)
  exact ⟨h.1, h.2.1⟩

/-! ## Claim C1 -/

/-- Per-row agreement between the source's multi-year pairing and the claim's
column-aligned pairing, when every header after the category column matches
the year pattern. -/
theorem multiYearRow_claim_eq (h0 : String) (hs : List String) (sect src : String)
    (hyear : ∀ h ∈ hs, yearPat (strTrim h) = true) (row : List String) :
    multiYearRow hs sect src row
      = (fun row =>
          let parts := (List.enum (h0 :: hs)).filterMap (yearPairClaimF row)
          if parts.isEmpty then none
          else some { Category := strTrim (row.getD 0 ""), Value := joinSep "; " parts,
                      Section := sect, Source := src ++ " (all years)" }) row := by
  dsimp only
  have henum : (List.enum (h0 :: hs)).filterMap (yearPairClaimF row)
      = (List.enumFrom 1 hs).filterMap (yearPairClaimF row) := by
    show ((((0 : Nat), h0) :: List.enumFrom 1 hs).filterMap (yearPairClaimF row)) = _
    rw [List.filterMap_cons]
    rw [show yearPairClaimF row ((0 : Nat), h0) = none from by simp [yearPairClaimF]]
  have hcong : (List.enumFrom 1 hs).filterMap (yearPairClaimF row)
      = (List.enumFrom 1 hs).filterMap (yearPairF row) := by
    apply filterMap_congr_mem
    intro p hp
    obtain ⟨hge, hmem⟩ := mem_enumFrom_facts hs 1 p hp
    unfold yearPairClaimF
    rw [if_neg (by omega), if_neg (by simp [hyear p.2 hmem])]
  rw [henum, hcong]
  unfold multiYearRow
  by_cases hlen : row.length < 2
  · rw [if_pos hlen]
    have hparts : (List.enumFrom 1 hs).filterMap (yearPairF row) = [] := by
      apply filterMap_eq_nil_all
      intro p hp
      obtain ⟨hge, _⟩ := mem_enumFrom_facts hs 1 p hp
      unfold yearPairF
      rw [if_neg (by omega)]
    rw [hparts]
    rfl
  · rw [if_neg hlen]

/-- Claim C1 (counterexample): with a non-year header between the category
column and a year header, the source pairs the year header with `row[1]`
(the cell under "Notes"), not with the cell under its own column. -/
theorem claim_C1_counterexample :
    add_table_to_data_static ["Category", "Notes", "2020-2021"] [["A", "x", "y"]] "S" "T"
      = [{ Category := "A", Value := "2020-2021: x", Section := "S",
           Source := "T (all years)" }]
    ∧ add_table_multi_year_claim ["Category", "Notes", "2020-2021"] [["A", "x", "y"]] "S" "T"
      = [{ Category := "A", Value := "2020-2021: y", Section := "S",
           Source := "T (all years)" }]
    ∧ add_table_to_data_static ["Category", "Notes", "2020-2021"] [["A", "x", "y"]] "S" "T"
      ≠ add_table_multi_year_claim ["Category", "Notes", "2020-2021"] [["A", "x", "y"]] "S" "T" := by
  refine ⟨by decide, by decide, by decide⟩

/-- Claim C1 (amended): when the headers after the first are all year headers
— in particular in the claim's concrete example — the source's positional
pairing coincides with pairing each year header with the cell under its own
column, and the concrete retention example emits exactly the one record the
claim describes. In general the source pairs the `k`-th matching year header
with `row[k]`, which differs from the claim whenever a non-matching header
intervenes. -/
theorem claim_C1_amended :
    (∀ (headers : List String) (rows : List (List String)) (sect src : String),
      headers.drop 1 ≠ [] →
      (∀ h ∈ headers.drop 1, yearPat (strTrim h) = true) →
      add_table_to_data_static headers rows sect src
        = add_table_multi_year_claim headers rows sect src)
    ∧ add_table_to_data_static ["Category", "2020-2021", "2021-2022"]
        [["Retention rate", "82%", "85%"], ["Transfer rate", "-", "-"]] "S" "Src"
      = [{ Category := "Retention rate", Value := "2020-2021: 82%; 2021-2022: 85%",
           Section := "S", Source := "Src (all years)" }] := by
  refine ⟨?_, by decide⟩
  intro headers rows sect src hne hyear
  cases headers with
  | nil => exact absurd rfl hne
  | cons h0 hs =>
    have hhs : (h0 :: hs).drop 1 = hs := rfl
    rw [hhs] at hne hyear
    unfold add_table_to_data_static add_table_multi_year_claim
    simp only [List.drop_succ_cons, List.drop_zero]
    rw [filter_eq_self_all _ _ hyear]
    rw [if_pos (by simpa using hne)]
    apply filterMap_congr_mem
    intro row _
    exact multiYearRow_claim_eq h0 hs sect src hyear row

/-- Witness for C1 (amended): the general agreement applied to the claim's
concrete headers. -/
theorem claim_C1_witness :
    add_table_to_data_static ["Category", "2020-2021", "2021-2022"]
        [["Retention rate", "82%", "85%"], ["Transfer rate", "-", "-"]] "S" "Src"
      = add_table_multi_year_claim ["Category", "2020-2021", "2021-2022"]
          [["Retention rate", "82%", "85%"], ["Transfer rate", "-", "-"]] "S" "Src" :=
  claim_C1_amended.1 ["Category", "2020-2021", "2021-2022"]
    [["Retention rate", "82%", "85%"], ["Transfer rate", "-", "-"]] "S" "Src"
    (by decide) (by decide)

/-! ## Claim C2 -/

/-- Concrete table for C2: one data row whose only value cell is the dash,
matching no search term. -/
def tblC2 : Table :=
  { cls := "", text := "transfer rate -", captions := [], thead := none,
    rows := [
      { cls := "", ths := [],
        tds := [{ text := "Transfer rate", imgAlt := none }, { text := "-", imgAlt := none }] }
    ],
    imgs := [], svgTitle := none, sect := "S" }

/-- The C2 table as a primary-stage match record. -/
def mC2 : MatchInfo :=
  { index := 0, elem := tblC2, matchType := "exact_term", sect := "S" }

/-- Claim C2 (counterexample): when DeepRowSearch fails on a matched table,
the orchestrator emits the entire-table dump of `process_regular_table_static`
— a table-content marker, a header-summary row and a `"blank"`-substituted
data row — which is not the output of the three-mode formatter
`add_table_to_data_static` (here: one record with `Value = ""` and no
marker rows). -/
theorem claim_C2_counterexample :
    process_matching_elements_static [mC2] (cacheOf [tblC2]) ["zzz"] []
      = (true,
         [{ Category := "--- S - ENTIRE TABLE 1 CONTENT ---", Value := "", Section := "S",
            Source := "Full Table 1 (Header)" },
          { Category := "blank", Value := "blank", Section := "S",
            Source := "Deep Table Search – Table Headers" },
          { Category := "Transfer rate", Value := "blank", Section := "S",
            Source := "Full Table 1" }])
    ∧ (deep_search_in_table_static tblC2 (cacheOf [tblC2] 0) ["zzz"] [] "S").1 = false
    ∧ add_table_to_data_static (cacheOf [tblC2] 0).1 [["Transfer rate", "-"]] "S" "Full Table 1"
      = [{ Category := "Transfer rate", Value := "", Section := "S", Source := "Full Table 1" }]
    ∧ (process_matching_elements_static [mC2] (cacheOf [tblC2]) ["zzz"] []).2
      ≠ add_table_to_data_static (cacheOf [tblC2] 0).1 [["Transfer rate", "-"]] "S"
          "Full Table 1" := by
  refine ⟨by decide, by decide, by decide, by decide⟩

/-- Claim C2 (amended): for a table matched by the primary aggregate-text
stage on which DeepRowSearch reports no match, the orchestrator falls back to
`process_regular_table_static` — the entire-table dump — (not the three-mode
formatter), and that fallback emits output whenever the table has a data row
with cells. -/
theorem claim_C2_amended :
    (∀ (m : MatchInfo) (rest : List MatchInfo) (cache : Nat → List String × Nat)
      (terms kws : List String),
      (deep_search_in_table_static m.elem (cache m.index) terms kws m.sect).1 = false →
      process_matching_elements_static (m :: rest) cache terms kws
        = ((process_regular_table_static m.elem (cache m.index) m.sect m.index).1
             || (process_matching_elements_static rest cache terms kws).1,
           (process_regular_table_static m.elem (cache m.index) m.sect m.index).2
             ++ (process_matching_elements_static rest cache terms kws).2))
    ∧ (∀ (t : Table) (hs : List String × Nat) (sect : String) (i : Nat) (r : Row),
        r ∈ t.rows.drop hs.2 → r.tds ≠ [] →
        (process_regular_table_static t hs sect i).2 ≠ []) := by
  constructor
  · intro m rest cache terms kws hds
    simp only [process_matching_elements_static]
    rw [if_neg (by simp [hds])]
  · intro t hs sect i r hr htds
    unfold process_regular_table_static
    have hrows : t.rows ≠ [] := by
      intro hc
      rw [hc, List.drop_nil] at hr
      cases hr
    rw [if_neg (by simpa using hrows)]
    dsimp only
    have hdr : ((t.rows.drop hs.2).filterMap
        (fun r => if r.tds.isEmpty then none else some (rawVals r))) ≠ [] := by
      intro hc
      have hmem : rawVals r ∈ (t.rows.drop hs.2).filterMap
          (fun r => if r.tds.isEmpty then none else some (rawVals r)) :=
        List.mem_filterMap.mpr ⟨r, hr, by rw [if_neg (by simpa using htds)]⟩
      rw [hc] at hmem
      cases hmem
    rw [if_neg (by simpa using hdr)]
    simp

/-- Witness for C2 (amended): the fallback equation and non-empty output at
the concrete matched table. -/
theorem claim_C2_witness :
    process_matching_elements_static [mC2] (cacheOf [tblC2]) ["zzz"] []
      = ((process_regular_table_static mC2.elem (cacheOf [tblC2] mC2.index) mC2.sect
            mC2.index).1
           || (process_matching_elements_static [] (cacheOf [tblC2]) ["zzz"] []).1,
         (process_regular_table_static mC2.elem (cacheOf [tblC2] mC2.index) mC2.sect
            mC2.index).2
           ++ (process_matching_elements_static [] (cacheOf [tblC2]) ["zzz"] []).2)
    ∧ (process_regular_table_static tblC2 (cacheOf [tblC2] 0) "S" 0).2 ≠ [] := by
  constructor
  · exact claim_C2_amended.1 mC2 [] (cacheOf [tblC2]) ["zzz"] [] (by decide)
  · exact claim_C2_amended.2 tblC2 (cacheOf [tblC2] 0) "S" 0
      { cls := "", ths := [],
        tds := [{ text := "Transfer rate", imgAlt := none }, { text := "-", imgAlt := none }] }
      (by decide) (by decide)

/-! ## Claim C3 -/

/-- Some search term, case-folded, occurs in the widget's title text, alt
text or container text (the effective graph matcher's term criterion). -/
def graphTermHit (g : Table) (terms : List String) : Prop :=
  ∃ t ∈ terms,
    List.IsInfix (strLower t).data (graphTitleText g).data
    ∨ List.IsInfix (strLower t).data (graphAltText g).data
    ∨ List.IsInfix (strLower t).data (strLower (strTrim g.text)).data

/-- The keyword set is non-empty and all keywords occur in the container,
title, or alt text (the effective graph matcher's keyword criterion). -/
def graphKwHit (g : Table) (kws : List String) : Prop :=
  kws ≠ [] ∧ (keyword_match_static (strLower (strTrim g.text)) kws = true
    ∨ keyword_match_static (graphTitleText g) kws = true
    ∨ keyword_match_static (graphAltText g) kws = true)

/-- Concrete graph container for C3: alt text with a percent sign, no term
occurrence, empty keyword set. -/
def gC3 : Table :=
  { cls := "graphtabs", text := "", captions := [], thead := none, rows := [],
    imgs := [("Graduation 50%", "g.png")], svgTitle := none, sect := "S" }

/-- Claim C3 (counterexample): a widget whose alt text contains a percent
sign (and is non-empty) but matches no term is NOT matched by the effective
discovery — the percent and non-empty-alt heuristics live only in the
earlier, shadowed definition, which would have matched it as
`percent_graph`. -/
theorem claim_C3_counterexample :
    find_matching_graph_tables_static [gC3] ["retention"] [] = []
    ∧ containsSub (graphAltText gC3) "%" = true
    ∧ containsSub (graphAltText gC3) (strLower "retention") = false
    ∧ graphAltText gC3 ≠ ""
    ∧ find_matching_graph_tables_static_v1 [gC3] ["retention"] []
        = [{ index := 0, elem := gC3, matchType := "percent_graph", sect := "S" }] := by
  refine ⟨by decide, by decide, by decide, by decide, by decide⟩

/-- Claim C3 (amended): the effective per-widget discovery tests, in order,
(1) some term in the title/alt/container text, else (2) when keywords exist,
all keywords in the container, title or alt text; it stops at the first
success and records `term_match_graph (term)` resp. `keyword_graph`; a widget
failing both is not matched. There is no percent-sign or non-empty-alt
heuristic. -/
theorem claim_C3_amended : ∀ (g : Table) (terms kws : List String),
    (find_matching_graph_tables_static [g] terms kws ≠ []
      ↔ graphTermHit g terms ∨ graphKwHit g kws)
    ∧ (graphTermHit g terms → ∃ t ∈ terms,
        find_matching_graph_tables_static [g] terms kws
          = [{ index := 0, elem := g, matchType := "term_match_graph (" ++ t ++ ")",
               sect := g.sect }])
    ∧ (¬ graphTermHit g terms → graphKwHit g kws →
        find_matching_graph_tables_static [g] terms kws
          = [{ index := 0, elem := g, matchType := "keyword_graph", sect := g.sect }]) := by
  intro g terms kws
  have hpred : ∀ term : String,
      (containsSub (graphTitleText g) (strLower term)
        || containsSub (graphAltText g) (strLower term)
        || containsSub (strLower (strTrim g.text)) (strLower term)) = true
      ↔ (List.IsInfix (strLower term).data (graphTitleText g).data
        ∨ List.IsInfix (strLower term).data (graphAltText g).data
        ∨ List.IsInfix (strLower term).data (strLower (strTrim g.text)).data) := by
    intro term
    simp [Bool.or_eq_true, containsSub_iff, or_assoc]
  have hterm_iff : graphTermHit g terms
      ↔ (terms.find? (fun term => containsSub (graphTitleText g) (strLower term)
          || containsSub (graphAltText g) (strLower term)
          || containsSub (strLower (strTrim g.text)) (strLower term))).isSome = true := by
    rw [List.find?_isSome]
    unfold graphTermHit
    apply exists_congr
    intro t
    apply and_congr_right
    intro _
    exact (hpred t).symm
  have hsingle : ∀ f : Nat × Table → Option MatchInfo,
      (List.enum [g]).filterMap f
        = match f (0, g) with | none => [] | some b => [b] := by
    intro f
    cases hf : f (0, g) with
    | none =>
      simp [List.enum, List.enumFrom, List.filterMap_cons, List.filterMap_nil, hf]
    | some b =>
      simp [List.enum, List.enumFrom, List.filterMap_cons, List.filterMap_nil, hf]
  cases hfind : terms.find? (fun term => containsSub (graphTitleText g) (strLower term)
      || containsSub (graphAltText g) (strLower term)
      || containsSub (strLower (strTrim g.text)) (strLower term)) with
  | some t =>
    have htp : graphTermHit g terms := hterm_iff.mpr (by rw [hfind]; rfl)
    have hres : find_matching_graph_tables_static [g] terms kws
        = [{ index := 0, elem := g, matchType := "term_match_graph (" ++ t ++ ")",
             sect := g.sect }] := by
      unfold find_matching_graph_tables_static
      rw [hsingle]
      dsimp only
      rw [hfind]
    refine ⟨?_, ?_, ?_⟩
    · constructor
      · intro _; exact Or.inl htp
      · intro _; rw [hres]; simp
    · intro _
      exact ⟨t, List.mem_of_find?_eq_some hfind, hres⟩
    · intro hnt _
      exact absurd htp hnt
  | none =>
    have hnt : ¬ graphTermHit g terms := by
      intro h
      have := hterm_iff.mp h
      rw [hfind] at this
      cases this
    have hkw_iff : graphKwHit g kws
        ↔ ((!kws.isEmpty) = true
            ∧ (keyword_match_static (strLower (strTrim g.text)) kws
                || keyword_match_static (graphTitleText g) kws
                || keyword_match_static (graphAltText g) kws) = true) := by
      unfold graphKwHit
      simp [Bool.or_eq_true, or_assoc, List.isEmpty_iff]
    by_cases hkw : graphKwHit g kws
    · have hres : find_matching_graph_tables_static [g] terms kws
          = [{ index := 0, elem := g, matchType := "keyword_graph", sect := g.sect }] := by
        unfold find_matching_graph_tables_static
        rw [hsingle]
        dsimp only
        rw [hfind]
        rw [if_pos (hkw_iff.mp hkw)]
      refine ⟨?_, ?_, ?_⟩
      · constructor
        · intro _; exact Or.inr hkw
        · intro _; rw [hres]; simp
      · intro ht; exact absurd ht hnt
      · intro _ _; exact hres
    · have hres : find_matching_graph_tables_static [g] terms kws = [] := by
        unfold find_matching_graph_tables_static
        rw [hsingle]
        dsimp only
        rw [hfind]
        rw [if_neg (fun hc => hkw (hkw_iff.mpr hc))]
      refine ⟨?_, ?_, ?_⟩
      · constructor
        · intro h; exact absurd hres h
        · rintro (h | h)
          · exact absurd h hnt
          · exact absurd h hkw
      · intro ht; exact absurd ht hnt
      · intro _ hk; exact absurd hk hkw
  
/-- Concrete graph container for the C3 witness: keyword match, no term. -/
def gC3w : Table :=
  { cls := "graphtabs", text := "graduation rate chart", captions := [], thead := none,
    rows := [], imgs := [], svgTitle := none, sect := "S2" }

/-- Witness for C3 (amended): the keyword branch at a concrete widget. -/
theorem claim_C3_witness :
    find_matching_graph_tables_static [gC3w] [] ["rate"]
      = [{ index := 0, elem := gC3w, matchType := "keyword_graph", sect := gC3w.sect }] :=
  (claim_C3_amended gC3w [] ["rate"]).2.2
    (by rintro ⟨t, ht, _⟩; cases ht)
    (by exact ⟨by decide, Or.inl (by decide)⟩)

/-! ## Claim C8 -/

/-- Multi-year rows ignore the dash-to-empty replacement on the value cells. -/
theorem multiYearRow_dash (yh : List String) (sect src c0 : String) (rest : List String) :
    multiYearRow yh sect src (c0 :: rest.map dashToEmpty)
      = multiYearRow yh sect src (c0 :: rest) := by
  unfold multiYearRow
  have hlen : (c0 :: rest.map dashToEmpty).length = (c0 :: rest).length := by simp
  rw [hlen]
  by_cases hl : (c0 :: rest).length < 2
  · rw [if_pos hl, if_pos hl]
  · rw [if_neg hl, if_neg hl]
    have hparts : (List.enumFrom 1 yh).filterMap (yearPairF (c0 :: rest.map dashToEmpty))
        = (List.enumFrom 1 yh).filterMap (yearPairF (c0 :: rest)) := by
      apply filterMap_congr_mem
      intro p hp
      obtain ⟨hge, _⟩ := mem_enumFrom_facts yh 1 p hp
      unfold yearPairF
      rw [hlen]
      by_cases hpl : p.1 < (c0 :: rest).length
      · rw [if_pos hpl, if_pos hpl]
        dsimp only
        cases hp1 : p.1 with
        | zero => omega
        | succ k =>
          rw [hp1] at hpl
          have hk : k < rest.length := by simpa using hpl
          simp only [List.getD_cons_succ]
          rw [getD_map_str dashToEmpty rest k hk]
          by_cases hv : rest.getD k "" = "-"
          · rw [hv, show dashToEmpty "-" = "" from rfl,
                show strTrim "" = "" from rfl, show strTrim "-" = "-" from rfl,
                if_neg (by simp), if_neg (by simp)]
          · rw [show dashToEmpty (rest.getD k "") = rest.getD k "" from if_neg hv]
      · rw [if_neg hpl, if_neg hpl]
    rw [hparts]
    simp only [List.getD_cons_zero]

/-- Label-mode rows ignore the dash-to-empty replacement on the value cells. -/
theorem labelRow_dash (sect src c0 : String) (rest : List String) :
    labelRow sect src (c0 :: rest.map dashToEmpty) = labelRow sect src (c0 :: rest) := by
  unfold labelRow
  rw [if_neg (by simp), if_neg (by simp)]
  simp only [List.drop_succ_cons, List.drop_zero, List.getD_cons_zero]
  rw [label_vals_dash]

/-- Columnar rows ignore the dash-to-empty replacement on the value cells. -/
theorem columnarRow_dash (headers : List String) (sect src c0 : String)
    (rest : List String) :
    columnarRow headers sect src (c0 :: rest.map dashToEmpty)
      = columnarRow headers sect src (c0 :: rest) := by
  unfold columnarRow
  rw [if_neg (show ¬((c0 :: rest.map dashToEmpty).isEmpty = true) by simp),
      if_neg (show ¬((c0 :: rest).isEmpty = true) by simp)]
  simp only [List.drop_succ_cons, List.drop_zero, List.getD_cons_zero]
  have hparts : (List.enumFrom 1 (rest.map dashToEmpty)).filterMap (colPairF headers)
      = (List.enumFrom 1 rest).filterMap (colPairF headers) := by
    rw [enumFrom_map dashToEmpty rest 1, List.filterMap_map]
    apply filterMap_congr_mem
    intro p _
    show colPairF headers (p.1, dashToEmpty p.2) = colPairF headers p
    unfold colPairF
    by_cases hv : p.2 = "-"
    · rw [hv, show dashToEmpty "-" = "" from rfl]
      dsimp only
      rw [if_pos (by decide), if_pos (by decide)]
    · rw [show dashToEmpty p.2 = p.2 from if_neg hv]
  rw [hparts]

/-- Concrete table for C8: a header cell whose text is exactly the dash. -/
def tblC8 : Table :=
  { cls := "", text := "", captions := [],
    thead := some [{ ths := ["A", "-"], tds := [] }],
    rows := [
      { cls := "", ths := ["A", "-"], tds := [] },
      { cls := "", ths := [],
        tds := [{ text := "Retention", imgAlt := none }, { text := "82%", imgAlt := none }] }
    ],
    imgs := [], svgTitle := none, sect := "S" }

/-- Concrete one-row table with a dash value cell. -/
def tblC8dash : Table :=
  { cls := "", text := "", captions := [], thead := none,
    rows := [
      { cls := "", ths := [],
        tds := [{ text := "X", imgAlt := none }, { text := "-", imgAlt := none }] }
    ],
    imgs := [], svgTitle := none, sect := "S" }

/-- The same table with the dash cell emptied. -/
def tblC8empty : Table :=
  { cls := "", text := "", captions := [], thead := none,
    rows := [
      { cls := "", ths := [],
        tds := [{ text := "X", imgAlt := none }, { text := "", imgAlt := none }] }
    ],
    imgs := [], svgTitle := none, sect := "S" }

/-- Claim C8 (counterexample): a table cell whose text is exactly `"-"` CAN
appear literally in an emitted Value — when it is a header cell, the
header-summary record copies it verbatim — and the row-match text keeps the
literal dash, so DeepRowSearch does not treat a dash cell like an empty cell:
the dash table matches the term `"-"`, the emptied one does not. -/
theorem claim_C8_counterexample :
    deep_search_in_table_static tblC8
        (get_table_headers_and_data_start_idx_static tblC8 tblC8.rows) ["retention"] [] "S"
      = (true,
         [{ Category := "--- S - SEARCH RESULTS IN TABLE ---", Value := "", Section := "S",
            Source := "Deep Table Search Section Header" },
          { Category := "A", Value := "-", Section := "S",
            Source := "Deep Table Search – Table Headers" },
          { Category := "Retention", Value := "82%", Section := "S",
            Source := "DeepSearch - Term Match" }])
    ∧ (deep_search_in_table_static tblC8dash ([], 0) ["-"] [] "S").1 = true
    ∧ (deep_search_in_table_static tblC8empty ([], 0) ["-"] [] "S").1 = false := by
  refine ⟨by decide, by decide, by decide⟩

/-- Claim C8 (amended): in the VALUE cells of matched-row output, `"-"` and
`""` are interchangeable absent-value markers — DeepRowSearch's substitution
renders both as the literal `"blank"` (and never outputs a bare dash or empty
component), and the three-mode formatter produces identical records whether
a non-category cell holds `"-"` or `""`. Header labels are outside this
guarantee, and the searchable row text keeps the literal dash. -/
theorem claim_C8_amended :
    (blankSub "-" = "blank" ∧ blankSub "" = "blank"
      ∧ ∀ v : String, blankSub v ≠ "-" ∧ blankSub v ≠ "")
    ∧ (∀ (headers : List String) (sect src c0 : String) (rest : List String),
        add_table_to_data_static headers [c0 :: rest.map dashToEmpty] sect src
          = add_table_to_data_static headers [c0 :: rest] sect src) := by
  constructor
  · refine ⟨rfl, rfl, ?_⟩
    intro v
    unfold blankSub
    by_cases hv : v ≠ "" ∧ v ≠ "-"
    · rw [if_pos hv]
      exact ⟨hv.2, hv.1⟩
    · rw [if_neg hv]
      exact ⟨by decide, by decide⟩
  · intro headers sect src c0 rest
    unfold add_table_to_data_static
    dsimp only
    cases hy : ((headers.drop 1).filter (fun h => yearPat (strTrim h))).isEmpty with
    | false =>
      simp only [Bool.not_false]
      rw [if_pos trivial, if_pos trivial, List.filterMap_cons, List.filterMap_cons,
          multiYearRow_dash]
    | true =>
      simp only [Bool.not_true]
      rw [if_neg (show ¬(false = true) by decide), if_neg (show ¬(false = true) by decide)]
      by_cases hl : headers.isEmpty = true
          ∨ (headers.length = 1 ∧ strTrim (headers.getD 0 "") = "")
      · rw [if_pos hl, if_pos hl, List.filterMap_cons, List.filterMap_cons,
            labelRow_dash]
      · rw [if_neg hl, if_neg hl, List.filterMap_cons, List.filterMap_cons,
            columnarRow_dash]

/-! ## Claim C4 -/

/-- Claim C4: when the primary stage matched no data table and no graph, the
orchestrator's output is exactly the fallback cascade's, which runs
DeepRowSearch over every data table; if that pass reports no match anywhere
then (a) with an empty keyword set the fallback emits zero records, and
(b) with a non-empty keyword set it emits, per data table whose raw text
keyword-matches, a section-boundary marker followed by the entire-table
dump. -/
theorem claim_C4 : ∀ (allTables : List Table) (terms kws : List String),
    find_matching_tables_static (dataTablesOf allTables) terms kws = [] →
    find_matching_graph_tables_static (graphTablesOf allTables) terms kws = [] →
    (find_and_process_tables_graphs_static allTables terms kws
       = handle_no_matches_static (dataTablesOf allTables) []
           (cacheOf (dataTablesOf allTables)) terms kws)
    ∧ ((∀ p ∈ List.enum (dataTablesOf allTables),
          (deep_search_in_table_static p.2 (cacheOf (dataTablesOf allTables) p.1) terms kws
            p.2.sect).1 = false) →
       (kws = [] →
          handle_no_matches_static (dataTablesOf allTables) []
            (cacheOf (dataTablesOf allTables)) terms kws = [])
       ∧ (kws ≠ [] →
          handle_no_matches_static (dataTablesOf allTables) []
            (cacheOf (dataTablesOf allTables)) terms kws
            = catLists
                (((List.enum (dataTablesOf allTables)).filter
                    (fun p => keyword_match_static (strLower p.2.text) kws)).map
                  (fun p => deepSepRec p.2.sect
                    :: (process_regular_table_static p.2
                          (cacheOf (dataTablesOf allTables) p.1) p.2.sect p.1).2)))) := by
  intro allTables terms kws h1 h2
  constructor
  · unfold find_and_process_tables_graphs_static
    dsimp only
    rw [h1, h2]
    simp [process_matching_elements_static, process_matching_graphs_static]
  · intro hdeep
    have hdouts : ∀ d ∈ (List.enum (dataTablesOf allTables)).map
        (fun p => deep_search_in_table_static p.2 (cacheOf (dataTablesOf allTables) p.1)
          terms kws p.2.sect),
        d.1 = false ∧ d.2 = [] := by
      intro d hd
      obtain ⟨p, hp, rfl⟩ := List.mem_map.mp hd
      exact ⟨hdeep p hp, deep_search_false_nil _ _ _ _ _ (hdeep p hp)⟩
    have hfound : ((List.enum (dataTablesOf allTables)).map
        (fun p => deep_search_in_table_static p.2 (cacheOf (dataTablesOf allTables) p.1)
          terms kws p.2.sect)).any (fun d => d.1) = false :=
      any_eq_false_all _ _ (fun d hd => (hdouts d hd).1)
    have hrecs : catLists (((List.enum (dataTablesOf allTables)).map
        (fun p => deep_search_in_table_static p.2 (cacheOf (dataTablesOf allTables) p.1)
          terms kws p.2.sect)).map (fun d => d.2)) = [] := by
      apply catLists_eq_nil
      intro x hx
      obtain ⟨d, hd, rfl⟩ := List.mem_map.mp hx
      exact (hdouts d hd).2
    constructor
    · intro hkw
      subst hkw
      unfold handle_no_matches_static
      dsimp only
      rw [if_neg (by simp)]
      exact hrecs
    · intro hkw
      unfold handle_no_matches_static
      dsimp only
      rw [if_pos (by rw [hfound]; simpa using hkw)]
      rw [hrecs, List.nil_append]

/-- Concrete table for the C4 witness: matches neither term nor keyword. -/
def tblC4 : Table :=
  { cls := "", text := "nothing here", captions := [], thead := none,
    rows := [
      { cls := "", ths := [], tds := [{ text := "nothing", imgAlt := none }] }
    ],
    imgs := [], svgTitle := none, sect := "S" }

/-- Witness for C4: with no primary match, a failing deep pass and no
keywords, the whole orchestrator run emits zero records. -/
theorem claim_C4_witness :
    find_and_process_tables_graphs_static [tblC4] ["qqq"] [] = [] := by
  have h := claim_C4 [tblC4] ["qqq"] [] (by decide) (by decide)
  rw [h.1]
  exact (h.2 (by decide)).1 rfl
